import Mathlib

/-!
Verification of the statement-execution core (`src/src/engine.rs`) of the
minioin/database repository.  The SQL AST types mirror the `sqlparser` node
shapes consumed by `Engine::execute`; the engine state, events and the
dispatcher itself are translated branch by branch from `engine.rs`.  The
`crate::types` and `crate::storage` modules are not part of the provided
sources, so their behaviour is modelled from the specification (each such
definition carries a doc comment starting with `Modelled from the spec:`).
Rust panics (out-of-bounds indexing) are made explicit: the dispatcher
returns `Option ExecutionResult`, where `none` marks a panic.
-/

namespace Database

/-- SQL literal token (`sqlparser::ast::Value`) as consumed by the engine:
an integer literal or one of the literal kinds the literal converter
rejects (string, float, boolean, null). -/
inductive Value where
  | Number (n : Int)
  | SingleQuotedString (s : String)
  | Double (s : String)
  | Boolean (b : Bool)
  | Null
deriving DecidableEq

/-- Binary operators that can occur in a WHERE clause (`sqlparser::ast::BinaryOperator`). -/
inductive BinaryOperator where
  | Eq
  | NotEq
  | Lt
  | Gt
  | LtEq
  | GtEq
  | And
  | Or
deriving DecidableEq

/-- WHERE-clause / value expressions (`sqlparser::ast::Expr`), restricted to the
shapes the dispatcher matches on plus a column identifier for the non-literal
cases. -/
inductive Expr where
  | Value (v : Value)
  | Identifier (s : String)
  | BinaryOp (left : Expr) (op : BinaryOperator) (right : Expr)
  | Between (ex : Expr) (negated : Bool) (low : Expr) (high : Expr)
  | InList (ex : Expr) (list : List Expr) (negated : Bool)

/-- `sqlparser::ast::Assignment` of an UPDATE statement. -/
structure Assignment where
  id : String
  value : Expr

/-- `sqlparser::ast::TableFactor`: a plain table name or any other relation
shape (derived table, nested join, ...). -/
inductive TableFactor where
  | Table (name : String)
  | Derived (d : String)
deriving DecidableEq

/-- `sqlparser::ast::TableWithJoins` (only the `relation` field is read). -/
structure TableWithJoins where
  relation : TableFactor
deriving DecidableEq

/-- `sqlparser::ast::Select` restricted to the fields the engine reads. -/
structure Select where
  selection : Option Expr
  from_ : List TableWithJoins

/-- `sqlparser::ast::SetExpr`: a SELECT body, a VALUES list, or any other
set expression. -/
inductive SetExpr where
  | Select (s : Select)
  | Values (rows : List (List Expr))
  | Other (d : String)

/-- `sqlparser::ast::Query` (only the `body` field is read). -/
structure Query where
  body : SetExpr

/-- `sqlparser::ast::Statement`, restricted to the five tags the dispatcher
handles plus a catch-all for every other statement kind. -/
inductive Statement where
  | CreateTable (name : String)
  | Insert (table_name : String) (source : Query)
  | Update (table_name : String) (assignments : List Assignment) (selection : Option Expr)
  | Delete (table_name : String) (selection : Option Expr)
  | Query (q : Query)
  | Other (d : String)

/-- `crate::types::Type`: the closed set of storable value kinds.  The spec
(§3) records a single variant holding an arbitrary-precision signed integer
(`crate::types::Int`), which we embed as Lean's `Int`. -/
inductive Typ where
  | Int (n : Int)
deriving DecidableEq

/-- `crate::types::TypeError` as matched by `engine.rs` (`TypeError::Unsupported(message)`). -/
inductive TypeError where
  | Unsupported (msg : String)
deriving DecidableEq

/-- Modelled from the spec: `Type::try_from` of the `crate::types` module,
which is not under `src/`.  §4.1: integer literals parse to the integer
variant with arbitrary precision; any other literal kind (string, float,
boolean, null) fails with `TypeError::Unsupported(description)` where the
description names the literal kind. -/
def typeTryFrom : Value → Except TypeError Typ
  | Value.Number n => Except.ok (Typ.Int n)
  | Value.SingleQuotedString _ => Except.error (TypeError.Unsupported "string literal is not supported")
  | Value.Double _ => Except.error (TypeError.Unsupported "float literal is not supported")
  | Value.Boolean _ => Except.error (TypeError.Unsupported "boolean literal is not supported")
  | Value.Null => Except.error (TypeError.Unsupported "null literal is not supported")

/-- `crate::storage::Where`, with exactly the variants `engine.rs` constructs:
`Where::None`, `Where::Equal`, `Where::Between`, `Where::In`, `Where::Not`. -/
inductive Where where
  | None
  | Equal (v : Typ)
  | Between (low high : Typ)
  | In (vs : List Typ)
  | Not (w : Where)
deriving DecidableEq

/-- Modelled from the spec: predicate evaluation inside the storage backend
(`crate::storage`, not under `src/`).  §3: `None`/`MatchAll` selects every
row, `Equal(v)` the rows equal to `v`, `Between(low, high)` the closed
interval, `In(set)` membership in the set, `Not`/`Negate` the logical
complement. -/
def Where.eval : Where → Int → Bool
  | Where.None, _ => true
  | Where.Equal (Typ.Int x), v => decide (v = x)
  | Where.Between (Typ.Int low) (Typ.Int high), v => decide (low ≤ v) && decide (v ≤ high)
  | Where.In vs, v => decide (Typ.Int v ∈ vs)
  | Where.Not w, v => ! Where.eval w v

/-- Association-list lookup, standing for `HashMap::get` / the storage
backend's table lookup by name. -/
def assocGet {α : Type} : List (String × α) → String → Option α
  | [], _ => Option.none
  | (k, v) :: rest, key => if k = key then Option.some v else assocGet rest key

/-- Association-list insert-or-replace, standing for `HashMap::insert` /
registering a table in the storage backend. -/
def assocPut {α : Type} : List (String × α) → String → α → List (String × α)
  | [], key, v => [(key, v)]
  | (k, w) :: rest, key, v =>
    if k = key then (key, v) :: rest else (k, w) :: assocPut rest key v

/-- Insertion into the ordered key list of a `BTreeMap` keyed by the row's own
value: inserting an existing key replaces its entry (and, the payload being
the key itself, leaves the list unchanged). -/
def sortedInsert : List Int → Int → List Int
  | [], v => [v]
  | x :: xs, v =>
    if v < x then v :: x :: xs
    else if v = x then x :: xs
    else x :: sortedInsert xs v

/-- Modelled from the spec: the state of the in-memory storage backend
(`crate::storage::in_memory`, not under `src/`).  §4.3: one ordered map per
table, keyed by the row's value; the payload is the encoded row value
itself, so the sorted key list determines the table's contents. -/
structure StorageState where
  tables : List (String × List Int)
deriving DecidableEq

/-- Modelled from the spec: `Storage::create_table` (§4.3) — fails if the
name is already registered; otherwise registers an empty table. -/
def StorageState.create_table (st : StorageState) (name : String) : Except Unit StorageState :=
  match assocGet st.tables name with
  | Option.some _ => Except.error ()
  | Option.none => Except.ok ⟨assocPut st.tables name []⟩

/-- Modelled from the spec: `Storage::insert_into` (§4.3) — fails if the
table is unknown; otherwise the row's single value becomes both the storage
key and the payload. -/
def StorageState.insert_into (st : StorageState) (name : String) (v : Int) : Except Unit StorageState :=
  match assocGet st.tables name with
  | Option.none => Except.error ()
  | Option.some keys => Except.ok ⟨assocPut st.tables name (sortedInsert keys v)⟩

/-- Modelled from the spec: `Storage::select` (§4.3) — evaluates the
predicate against every stored row in ascending key order; fails with one
conflated error classification when the table is unknown or has never
received any value. -/
def StorageState.select (st : StorageState) (name : String) (w : Where) :
    Except Unit (List (List Typ)) :=
  match assocGet st.tables name with
  | Option.none => Except.error ()
  | Option.some keys =>
    if keys = [] then Except.error ()
    else Except.ok ((keys.filter fun v => Where.eval w v).map fun v => [Typ.Int v])

/-- `EngineEvent` from `engine.rs` lines 16-23. -/
inductive EngineEvent where
  | TableCreated (name : String)
  | RecordInserted
  | RecordsSelected (records : List (List Typ))
  | RecordsUpdated
  | RecordsDeleted
deriving DecidableEq

/-- `ErrorEvent` from `engine.rs` lines 25-30: exactly three variants. -/
inductive ErrorEvent where
  | TableAlreadyExists (name : String)
  | UnimplementedBranch (desc : String)
  | TableDoesNotExist (name : String)
deriving DecidableEq

/-- `pub type ExecutionResult = Result<EngineEvent, ErrorEvent>` (`engine.rs` line 14). -/
abbrev ExecutionResult := Except ErrorEvent EngineEvent

/-- Equality of `Except` results is decidable, so concrete runs can be
evaluated by `decide`. -/
instance {ε α : Type} [DecidableEq ε] [DecidableEq α] : DecidableEq (Except ε α) := fun a b =>
  match a, b with
  | Except.ok x, Except.ok y =>
    if h : x = y then Decidable.isTrue (by rw [h]) else Decidable.isFalse (by simpa using h)
  | Except.error x, Except.error y =>
    if h : x = y then Decidable.isTrue (by rw [h]) else Decidable.isFalse (by simpa using h)
  | Except.ok _, Except.error _ => Decidable.isFalse (by simp)
  | Except.error _, Except.ok _ => Decidable.isFalse (by simp)

/-- The `Engine` struct (`engine.rs` lines 42-46): the engine's own registry
`tables: HashMap<String, BTreeMap<Int, Vec<u8>>>` plus the storage backend.
The registry's per-table map is embedded as an association list from key to
stored (bincode-encoded) value, which we represent by the integer itself since
the engine never decodes these payloads.  The `dialect` field only
parameterises the external SQL text parser and carries no state. -/
structure Engine where
  tables : List (String × List (Int × Int))
  storage : StorageState
deriving DecidableEq

/-- `Engine::default()` (`engine.rs` lines 395-403): empty registry, fresh
in-memory storage. -/
def engineDefault : Engine := ⟨[], ⟨[]⟩⟩

/-- `table.keys().cloned().collect::<Vec<Int>>()` on a registry map. -/
def regKeys (table : List (Int × Int)) : List Int := table.map Prod.fst

/-- `table.get_mut(&key)` followed by overwriting the payload: updates the
entry if the key is present, does nothing otherwise (`engine.rs` lines 163-167). -/
def regUpdate (table : List (Int × Int)) (key v : Int) : List (Int × Int) :=
  table.map fun p => if p.1 = key then (key, v) else p

/-- `table.remove(&key)` (`engine.rs` line 211). -/
def regRemove (table : List (Int × Int)) (key : Int) : List (Int × Int) :=
  table.filter fun p => decide (p.1 ≠ key)

/-- Target-key resolution from the `selection` of an UPDATE or DELETE,
duplicated verbatim in both branches of the source (`engine.rs` lines 110-142
and 177-209): any `Expr::BinaryOp` whose right-hand side converts to an
integer literal yields that single key (the operator and left operand are
ignored by the `Expr::BinaryOp { right, .. }` pattern); a binary operation
with a non-literal right-hand side, or a literal of an unsupported kind, is
an error; no selection yields every key of the registry map; every other
selection shape is an unimplemented diagnostic. -/
def resolveKeys (table : List (Int × Int)) (selection : Option Expr) :
    Except ErrorEvent (List Int) :=
  match selection with
  | Option.some (Expr.BinaryOp _ _ right) =>
    match right with
    | Expr.Value v =>
      match typeTryFrom v with
      | Except.ok (Typ.Int n) => Except.ok [n]
      | Except.error (TypeError.Unsupported msg) =>
        Except.error (ErrorEvent.UnimplementedBranch msg)
    | _ => Except.error (ErrorEvent.UnimplementedBranch "Non value RHS type is not supported")
  | Option.none => Except.ok (regKeys table)
  | Option.some _ => Except.error (ErrorEvent.UnimplementedBranch "UNIMPLEMENTED HANDLING OF WHERE CLAUSE")

/-- The conversion loop over an `IN (x, y, z)` list (`engine.rs` lines
313-332): converts each item in order, returning the diagnostic of the first
item that is not an integer literal. -/
def convertInList : List Expr → Except ErrorEvent (List Typ)
  | [] => Except.ok []
  | item :: rest =>
    match item with
    | Expr.Value v =>
      match typeTryFrom v with
      | Except.ok (Typ.Int n) => (convertInList rest).map fun s => Typ.Int n :: s
      | Except.error _ =>
        Except.error (ErrorEvent.UnimplementedBranch "UNIMPLEMENTED HANDLING OF STRING PARSING IN WHERE IN")
    | _ => Except.error (ErrorEvent.UnimplementedBranch "UNIMPLEMENTED HANDLING OF VALUES PARSING IN WHERE IN")

/-- The `Statement::Query` branch of `Engine::execute` (`engine.rs` lines
217-385).  This branch only reads the storage backend and never mutates the
engine, so it is a function of the storage state alone; `none` marks the
panic of `&from[0]` on an empty FROM list (line 221).  Note the `InList` arm
(lines 312-355): the source wraps the converted set in
`Where::Not(Box::new(Where::In(set)))` in BOTH the `!*negated` and the
negated branch. -/
def executeQuery (storage : StorageState) (query : Query) : Option ExecutionResult :=
  match query.body with
  | SetExpr.Select sel =>
    match sel.from_ with
    | [] => Option.none
    | twj :: _ =>
      match twj.relation with
      | TableFactor.Table table_name =>
        match sel.selection with
        | Option.some (Expr.BinaryOp _ op right) =>
          match op with
          | BinaryOperator.Eq =>
            match right with
            | Expr.Value v =>
              match typeTryFrom v with
              | Except.ok (Typ.Int n) =>
                match StorageState.select storage table_name (Where.Equal (Typ.Int n)) with
                | Except.error () =>
                  Option.some (Except.error (ErrorEvent.UnimplementedBranch "UNIMPLEMENTED HANDLING OF NO INSERTED VALUE"))
                | Except.ok records => Option.some (Except.ok (EngineEvent.RecordsSelected records))
              | Except.error _ =>
                Option.some (Except.error (ErrorEvent.UnimplementedBranch "UNIMPLEMENTED HANDLING OF STRING PARSING IN WHERE X = RIGHT"))
            | _ => Option.some (Except.error (ErrorEvent.UnimplementedBranch "UNIMPLEMENTED HANDLING OF RHS IN WHERE X = RIGHT"))
          | _ => Option.some (Except.error (ErrorEvent.UnimplementedBranch "UNIMPLEMENTED HANDLING OF OPERATOR IN WHERE CLAUSE"))
        | Option.some (Expr.Between _ negated low high) =>
          match low, high with
          | Expr.Value lv, Expr.Value hv =>
            match typeTryFrom lv, typeTryFrom hv with
            | Except.ok (Typ.Int lo), Except.ok (Typ.Int hi) =>
              if negated then
                match StorageState.select storage table_name (Where.Not (Where.Between (Typ.Int lo) (Typ.Int hi))) with
                | Except.ok records => Option.some (Except.ok (EngineEvent.RecordsSelected records))
                | Except.error () =>
                  Option.some (Except.error (ErrorEvent.UnimplementedBranch "UNIMPLEMENTED HANDLING OF STRING PARSING IN WHERE BETWEEN"))
              else
                match StorageState.select storage table_name (Where.Between (Typ.Int lo) (Typ.Int hi)) with
                | Except.ok records => Option.some (Except.ok (EngineEvent.RecordsSelected records))
                | Except.error () =>
                  Option.some (Except.error (ErrorEvent.UnimplementedBranch "UNIMPLEMENTED HANDLING OF STRING PARSING IN WHERE BETWEEN"))
            | _, _ => Option.some (Except.error (ErrorEvent.UnimplementedBranch "UNIMPLEMENTED HANDLING OF STRING PARSING IN WHERE BETWEEN"))
          | _, _ => Option.some (Except.error (ErrorEvent.UnimplementedBranch "UNIMPLEMENTED HANDLING IN WHERE BETWEEN"))
        | Option.some (Expr.InList _ list negated) =>
          match convertInList list with
          | Except.error err => Option.some (Except.error err)
          | Except.ok set =>
            if ! negated then
              match StorageState.select storage table_name (Where.Not (Where.In set)) with
              | Except.ok records => Option.some (Except.ok (EngineEvent.RecordsSelected records))
              | Except.error () =>
                Option.some (Except.error (ErrorEvent.UnimplementedBranch "UNIMPLEMENTED HANDLING OF WHERE CLAUSE"))
            else
              match StorageState.select storage table_name (Where.Not (Where.In set)) with
              | Except.ok records => Option.some (Except.ok (EngineEvent.RecordsSelected records))
              | Except.error () =>
                Option.some (Except.error (ErrorEvent.UnimplementedBranch "UNIMPLEMENTED HANDLING OF WHERE CLAUSE"))
        | Option.none =>
          match StorageState.select storage table_name Where.None with
          | Except.ok records => Option.some (Except.ok (EngineEvent.RecordsSelected records))
          | Except.error () =>
            Option.some (Except.error (ErrorEvent.UnimplementedBranch "UNIMPLEMENTED HANDLING OF WHERE CLAUSE"))
        | Option.some _ =>
          Option.some (Except.error (ErrorEvent.UnimplementedBranch "UNIMPLEMENTED HANDLING OF WHERE CLAUSE"))
      | _ => Option.some (Except.error (ErrorEvent.UnimplementedBranch "UNIMPLEMENTED SELECTION FROM MULTIPLE TABLES"))
  | _ => Option.some (Except.error (ErrorEvent.UnimplementedBranch "UNIMPLEMENTED HANDLING OF SELECT QUERY"))

/-- The body of `Engine::execute` after `statements.pop()` (`engine.rs` lines
55-391), i.e. the dispatch over `Option<Statement>`.  The first component is
the call's result, with `none` marking a Rust panic (the out-of-bounds
indexings `values[0][0]`, `assignments[0]`, `from[0]`); the second component
is the engine state after the call (a panic can only occur before any
mutation of the branch, so the state is returned unchanged there). -/
def executeStmt (e : Engine) (stmt : Option Statement) : Option ExecutionResult × Engine :=
  match stmt with
  | Option.some (Statement.CreateTable name) =>
    match StorageState.create_table e.storage name with
    | Except.ok st =>
      (Option.some (Except.ok (EngineEvent.TableCreated name)),
       ⟨assocPut e.tables name [], st⟩)
    | Except.error () => (Option.some (Except.error (ErrorEvent.TableAlreadyExists name)), e)
  | Option.some (Statement.Insert table_name source) =>
    match source.body with
    | SetExpr.Values rows =>
      match rows with
      | [] => (Option.none, e)
      | row0 :: _ =>
        match row0 with
        | [] => (Option.none, e)
        | item :: _ =>
          match item with
          | Expr.Value v =>
            match typeTryFrom v with
            | Except.ok (Typ.Int n) =>
              match StorageState.insert_into e.storage table_name n with
              | Except.error () =>
                (Option.some (Except.error (ErrorEvent.TableDoesNotExist table_name)), e)
              | Except.ok st =>
                (Option.some (Except.ok EngineEvent.RecordInserted), { e with storage := st })
            | Except.error _ =>
              (Option.some (Except.error (ErrorEvent.UnimplementedBranch "UNIMPLEMENTED HANDLING OF STRING PARSING IN INSERT INTO table VALUES")), e)
          | _ =>
            (Option.some (Except.error (ErrorEvent.UnimplementedBranch "UNIMPLEMENTED HANDLING OF PARSING IN INSERT INTO table VALUES")), e)
    | _ =>
      (Option.some (Except.error (ErrorEvent.UnimplementedBranch "UNIMPLEMENTED HANDLING OF VALUES INSERTION")), e)
  | Option.some (Statement.Update table_name assignments selection) =>
    match assocGet e.tables table_name with
    | Option.none => (Option.some (Except.error (ErrorEvent.TableDoesNotExist table_name)), e)
    | Option.some table =>
      match resolveKeys table selection with
      | Except.error err => (Option.some (Except.error err), e)
      | Except.ok keys =>
        match assignments with
        | [] => (Option.none, e)
        | a :: _ =>
          match a.value with
          | Expr.Value v =>
            match typeTryFrom v with
            | Except.ok (Typ.Int n) =>
              (Option.some (Except.ok EngineEvent.RecordsUpdated),
               { e with tables := assocPut e.tables table_name
                          (keys.foldl (fun t k => regUpdate t k n) table) })
            | Except.error (TypeError.Unsupported msg) =>
              (Option.some (Except.error (ErrorEvent.UnimplementedBranch msg)), e)
          | _ =>
            (Option.some (Except.error (ErrorEvent.UnimplementedBranch "Non value RHS type is not supported")), e)
  | Option.some (Statement.Delete table_name selection) =>
    match assocGet e.tables table_name with
    | Option.none => (Option.some (Except.error (ErrorEvent.TableDoesNotExist table_name)), e)
    | Option.some table =>
      match resolveKeys table selection with
      | Except.error err => (Option.some (Except.error err), e)
      | Except.ok keys =>
        (Option.some (Except.ok EngineEvent.RecordsDeleted),
         { e with tables := assocPut e.tables table_name
                    (keys.foldl (fun t k => regRemove t k) table) })
  | Option.some (Statement.Query q) => (executeQuery e.storage q, e)
  | _ =>
    (Option.some (Except.error (ErrorEvent.UnimplementedBranch "UNIMPLEMENTED HANDLING OF STATEMENT")), e)

/-- `Engine::execute` on an already parsed input: `statements.pop()` takes
the LAST statement of the parse result (or `None` when it is empty) and the
single `match` of `engine.rs` lines 55-391 runs on it. -/
def execute (e : Engine) (statements : List Statement) : Option ExecutionResult × Engine :=
  executeStmt e statements.getLast?

/-- A sequence of `execute` calls, each given by the statement its parse
result pops (`none` for an input parsing to zero statements). -/
def runCalls (e : Engine) (calls : List (Option Statement)) : Engine :=
  calls.foldl (fun acc s => (executeStmt acc s).2) e

/-! Concrete statements mirroring the repository's own test helpers
(`engine.rs` lines 482-540): table `simple_table` with single column
`int_column`. -/

/-- `CREATE TABLE simple_table (int_column INT);` -/
def createTableStmt : Statement := Statement.CreateTable "simple_table"

/-- `INSERT INTO simple_table VALUES (n);` -/
def insertStmt (n : Int) : Statement :=
  Statement.Insert "simple_table" ⟨SetExpr.Values [[Expr.Value (Value.Number n)]]⟩

/-- The column reference `int_column`. -/
def col : Expr := Expr.Identifier "int_column"

/-- An integer literal expression. -/
def intLit (n : Int) : Expr := Expr.Value (Value.Number n)

/-- `SELECT int_column FROM simple_table [WHERE sel];` -/
def selectStmt (sel : Option Expr) : Statement :=
  Statement.Query ⟨SetExpr.Select ⟨sel, [⟨TableFactor.Table "simple_table"⟩]⟩⟩

/-- The engine state after creating `simple_table` and inserting the
values 1, 2, 3, 4, 5. -/
def engineAfter12345 : Engine :=
  runCalls engineDefault
    [Option.some createTableStmt, Option.some (insertStmt 1), Option.some (insertStmt 2),
     Option.some (insertStmt 3), Option.some (insertStmt 4), Option.some (insertStmt 5)]

/-- The popped statements whose dispatch never reaches one of the three
out-of-bounds indexings of `Engine::execute` (`values[0][0]` at line 71,
`assignments[0]` at line 143, `from[0]` at line 221): an INSERT whose VALUES
rows are present and whose first row is non-empty, an UPDATE with at least
one assignment, a SELECT with a non-empty FROM list, and every other
statement shape. -/
def panicFree : Option Statement → Bool
  | Option.some (Statement.Insert _ source) =>
    match source.body with
    | SetExpr.Values rows =>
      match rows with
      | [] => false
      | row0 :: _ => ! row0.isEmpty
    | _ => true
  | Option.some (Statement.Update _ assignments _) => ! assignments.isEmpty
  | Option.some (Statement.Query q) =>
    match q.body with
    | SetExpr.Select sel => ! sel.from_.isEmpty
    | _ => true
  | _ => true

/-- Every per-table ordered map held in the engine's own `tables` registry is
empty. -/
def regAllEmpty (e : Engine) : Prop :=
  ∀ p ∈ e.tables, p.2 = ([] : List (Int × Int))

/-! Helper lemmas about the association-list and ordered-map operations. -/

theorem assocGet_put_self {α : Type} (l : List (String × α)) (k : String) (v : α) :
    assocGet (assocPut l k v) k = Option.some v := by
  induction l with
  | nil => simp [assocPut, assocGet]
  | cons p rest ih =>
    obtain ⟨k', w⟩ := p
    by_cases h : k' = k
    · simp [assocPut, assocGet, h]
    · simp [assocPut, assocGet, h, ih]

theorem mem_assocPut {α : Type} {p : String × α} {l : List (String × α)} {k : String} {v : α}
    (h : p ∈ assocPut l k v) : p = (k, v) ∨ p ∈ l := by
  induction l with
  | nil => simpa [assocPut] using h
  | cons q rest ih =>
    obtain ⟨k', w⟩ := q
    by_cases hk : k' = k
    · simp only [assocPut, if_pos hk] at h
      rcases List.mem_cons.mp h with h1 | h1
      · exact Or.inl h1
      · exact Or.inr (List.mem_cons_of_mem _ h1)
    · simp only [assocPut, if_neg hk] at h
      rcases List.mem_cons.mp h with h1 | h1
      · exact Or.inr (h1 ▸ List.mem_cons_self _ _)
      · rcases ih h1 with h2 | h2
        · exact Or.inl h2
        · exact Or.inr (List.mem_cons_of_mem _ h2)

theorem assocGet_mem {α : Type} {l : List (String × α)} {k : String} {v : α}
    (h : assocGet l k = Option.some v) : (k, v) ∈ l := by
  induction l with
  | nil => simp [assocGet] at h
  | cons q rest ih =>
    obtain ⟨k', w⟩ := q
    by_cases hk : k' = k
    · simp only [assocGet, if_pos hk, Option.some.injEq] at h
      subst hk; subst h; exact List.mem_cons_self _ _
    · simp only [assocGet, if_neg hk] at h
      exact List.mem_cons_of_mem _ (ih h)

theorem foldl_regUpdate_nil (keys : List Int) (n : Int) :
    keys.foldl (fun t k => regUpdate t k n) [] = [] := by
  induction keys with
  | nil => rfl
  | cons k ks ih => simpa [regUpdate] using ih

theorem foldl_regRemove_nil (keys : List Int) :
    keys.foldl (fun t k => regRemove t k) [] = [] := by
  induction keys with
  | nil => rfl
  | cons k ks ih => simpa [regRemove] using ih

/-- The `Update` branch never touches the storage backend: it resolves keys
and mutates rows only in the engine's own registry (`engine.rs` lines 105-171). -/
theorem update_storage_unchanged (e : Engine) (tn : String) (a : List Assignment)
    (sel : Option Expr) :
    ((executeStmt e (Option.some (Statement.Update tn a sel))).2).storage = e.storage := by
  simp only [executeStmt]
  repeat' split
  all_goals rfl

/-- The `Delete` branch never touches the storage backend (`engine.rs` lines 172-216). -/
theorem delete_storage_unchanged (e : Engine) (tn : String) (sel : Option Expr) :
    ((executeStmt e (Option.some (Statement.Delete tn sel))).2).storage = e.storage := by
  simp only [executeStmt]
  repeat' split
  all_goals rfl

/-- The `Insert` branch never writes to the engine's own registry: rows go
through `Storage::insert_into` only (`engine.rs` line 73). -/
theorem insert_tables_unchanged (e : Engine) (tn : String) (src : Query) :
    ((executeStmt e (Option.some (Statement.Insert tn src))).2).tables = e.tables := by
  simp only [executeStmt]
  repeat' split
  all_goals rfl

/-- Shape of the engine state after an `Update` call: unchanged, or its
registry overwritten at the target table with an in-place update of the
resolved keys. -/
theorem update_tables_shape (e : Engine) (tn : String) (a : List Assignment)
    (sel : Option Expr) :
    (executeStmt e (Option.some (Statement.Update tn a sel))).2 = e ∨
    ∃ (table : List (Int × Int)) (keys : List Int) (n : Int),
      assocGet e.tables tn = Option.some table ∧
      (executeStmt e (Option.some (Statement.Update tn a sel))).2 =
        { e with tables := assocPut e.tables tn
                  (List.foldl (fun t k => regUpdate t k n) table keys) } := by
  simp only [executeStmt]
  repeat' split
  all_goals first
    | exact Or.inl rfl
    | exact Or.inr ⟨_, _, _, by assumption, rfl⟩

/-- Shape of the engine state after a `Delete` call: unchanged, or its
registry overwritten at the target table with the resolved keys removed. -/
theorem delete_tables_shape (e : Engine) (tn : String) (sel : Option Expr) :
    (executeStmt e (Option.some (Statement.Delete tn sel))).2 = e ∨
    ∃ (table : List (Int × Int)) (keys : List Int),
      assocGet e.tables tn = Option.some table ∧
      (executeStmt e (Option.some (Statement.Delete tn sel))).2 =
        { e with tables := assocPut e.tables tn
                  (List.foldl (fun t k => regRemove t k) table keys) } := by
  simp only [executeStmt]
  repeat' split
  all_goals first
    | exact Or.inl rfl
    | exact Or.inr ⟨_, _, by assumption, rfl⟩

/-- One `execute` call preserves the emptiness of every registry map: only
`CreateTable` inserts into the registry, and it inserts `BTreeMap::new()`. -/
theorem regAllEmpty_step (e : Engine) (s : Option Statement) (h : regAllEmpty e) :
    regAllEmpty (executeStmt e s).2 := by
  cases s with
  | none => exact h
  | some st =>
    cases st with
    | CreateTable name =>
      simp only [executeStmt]
      split
      · intro p hp
        rcases mem_assocPut hp with h1 | h1
        · rw [h1]
        · exact h p h1
      · exact h
    | Insert tn src =>
      intro p hp
      rw [insert_tables_unchanged] at hp
      exact h p hp
    | Update tn a sel =>
      rcases update_tables_shape e tn a sel with h1 | ⟨table, keys, n, hget, h1⟩
      · rw [h1]; exact h
      · rw [h1]
        intro p hp
        rcases mem_assocPut hp with h2 | h2
        · have ht : table = [] := h _ (assocGet_mem hget)
          rw [h2]
          simp only [ht, foldl_regUpdate_nil]
        · exact h p h2
    | Delete tn sel =>
      rcases delete_tables_shape e tn sel with h1 | ⟨table, keys, hget, h1⟩
      · rw [h1]; exact h
      · rw [h1]
        intro p hp
        rcases mem_assocPut hp with h2 | h2
        · have ht : table = [] := h _ (assocGet_mem hget)
          rw [h2]
          simp only [ht, foldl_regRemove_nil]
        · exact h p h2
    | Query q => exact h
    | Other d => exact h

/-- Every sequence of `execute` calls starting from `Engine::default()`
preserves the registry-emptiness invariant. -/
theorem regAllEmpty_runCalls (calls : List (Option Statement)) :
    regAllEmpty (runCalls engineDefault calls) := by
  have general : ∀ (e : Engine), regAllEmpty e → regAllEmpty (runCalls e calls) := by
    induction calls with
    | nil => intro e he; exact he
    | cons c rest ih =>
      intro e he
      exact ih _ (regAllEmpty_step e c he)
  exact general engineDefault (by intro p hp; simp [engineDefault] at hp)

/-- The result of a `Query` dispatch is a function of the storage state alone
(`engine.rs` lines 217-385 never mutate the engine). -/
theorem executeStmt_query_fst (e : Engine) (q : Query) :
    (executeStmt e (Option.some (Statement.Query q))).1 = executeQuery e.storage q := rfl

/-! The claims. -/

/-- C1: the claim states that the engine wires `IN (v1, ..., vn)` and
`NOT IN (v1, ..., vn)` through genuinely distinct predicates, the affirmative
form selecting exactly the members — over `{1,2,3,4,5}`, `IN (1,3,5)` should
return `{1,3,5}` and `NOT IN (1,3,5)` should return `{2,4}`.  On the code
both source forms dispatch the identical predicate
`Where::Not(Box::new(Where::In(set)))` (`engine.rs` lines 333-355), so both
queries return `[[2],[4]]`: the affirmative `IN (1,3,5)` returns the
complement of what the claim — and the repository's own (non-ignored) test
`select_in_enumeration` — requires.  This theorem evaluates the code at the
failing input. -/
theorem c1_in_and_not_in_conflated :
    (executeStmt engineAfter12345 (Option.some (selectStmt
        (Option.some (Expr.InList col [intLit 1, intLit 3, intLit 5] false))))).1
      = Option.some (Except.ok (EngineEvent.RecordsSelected [[Typ.Int 2], [Typ.Int 4]]))
    ∧ (executeStmt engineAfter12345 (Option.some (selectStmt
        (Option.some (Expr.InList col [intLit 1, intLit 3, intLit 5] true))))).1
      = Option.some (Except.ok (EngineEvent.RecordsSelected [[Typ.Int 2], [Typ.Int 4]]))
    ∧ (executeStmt engineAfter12345 (Option.some (selectStmt
        (Option.some (Expr.InList col [intLit 1, intLit 3, intLit 5] false))))).1
      ≠ Option.some (Except.ok (EngineEvent.RecordsSelected [[Typ.Int 1], [Typ.Int 3], [Typ.Int 5]])) := by
  refine ⟨by decide, by decide, by decide⟩

/-- C2: the claim states that every operation against a never-created table
returns `TableDoesNotExist` uniformly for INSERT, SELECT, UPDATE and DELETE.
On the code, INSERT, UPDATE and DELETE do return `TableDoesNotExist`, but
SELECT maps the storage backend's failure for an unknown table to
`UnimplementedBranch` (`engine.rs` lines 238 and 357-368) — contradicting
both the claim and the repository's own (non-ignored) test
`select_from_not_existed_table`, which expects `TableDoesNotExist`.  This
theorem evaluates the code at the failing input. -/
theorem c2_unknown_table_not_uniform :
    (executeStmt engineDefault (Option.some (insertStmt 1))).1
      = Option.some (Except.error (ErrorEvent.TableDoesNotExist "simple_table"))
    ∧ (executeStmt engineDefault (Option.some (Statement.Update "simple_table"
        [⟨"int_column", intLit 100⟩] Option.none))).1
      = Option.some (Except.error (ErrorEvent.TableDoesNotExist "simple_table"))
    ∧ (executeStmt engineDefault (Option.some (Statement.Delete "simple_table" Option.none))).1
      = Option.some (Except.error (ErrorEvent.TableDoesNotExist "simple_table"))
    ∧ (executeStmt engineDefault (Option.some (selectStmt Option.none))).1
      = Option.some (Except.error (ErrorEvent.UnimplementedBranch "UNIMPLEMENTED HANDLING OF WHERE CLAUSE"))
    ∧ (executeStmt engineDefault (Option.some (selectStmt Option.none))).1
      ≠ Option.some (Except.error (ErrorEvent.TableDoesNotExist "simple_table")) := by
  refine ⟨by decide, by decide, by decide, by decide, by decide⟩

/-- C6: over the table `{1,2,3,4,5}`, `BETWEEN 2 AND 4` is dispatched as
`Where::Between(2,4)` and returns exactly `{2,3,4}`, while `NOT BETWEEN 2 AND 4`
is dispatched as `Where::Not(Where::Between(2,4))` and returns exactly `{1,5}`
(`engine.rs` lines 266-311); the two results are exact complements over the
rows present, and the storage-level predicates evaluate accordingly. -/
theorem c6_between_and_not_between :
    (executeStmt engineAfter12345 (Option.some (selectStmt
        (Option.some (Expr.Between col false (intLit 2) (intLit 4)))))).1
      = Option.some (Except.ok (EngineEvent.RecordsSelected [[Typ.Int 2], [Typ.Int 3], [Typ.Int 4]]))
    ∧ (executeStmt engineAfter12345 (Option.some (selectStmt
        (Option.some (Expr.Between col true (intLit 2) (intLit 4)))))).1
      = Option.some (Except.ok (EngineEvent.RecordsSelected [[Typ.Int 1], [Typ.Int 5]]))
    ∧ StorageState.select engineAfter12345.storage "simple_table"
        (Where.Between (Typ.Int 2) (Typ.Int 4))
      = Except.ok [[Typ.Int 2], [Typ.Int 3], [Typ.Int 4]]
    ∧ StorageState.select engineAfter12345.storage "simple_table"
        (Where.Not (Where.Between (Typ.Int 2) (Typ.Int 4)))
      = Except.ok [[Typ.Int 1], [Typ.Int 5]] := by
  refine ⟨by decide, by decide, by decide, by decide⟩

/-- C10: when the parsed input holds several statements, `statements.pop()`
(`engine.rs` line 55) runs only the last one, silently ignoring every
preceding statement; when it holds zero statements the catch-all arm
(`engine.rs` lines 386-391) returns `UnimplementedBranch` and leaves the
engine untouched. -/
theorem c10_last_statement_only (e : Engine) (ss : List Statement) (s : Statement) :
    execute e (ss ++ [s]) = executeStmt e (Option.some s)
    ∧ execute e [] =
        (Option.some (Except.error (ErrorEvent.UnimplementedBranch
          "UNIMPLEMENTED HANDLING OF STATEMENT")), e) := by
  constructor
  · simp [execute, List.getLast?_concat]
  · rfl

/-- C3 counterexample: a SELECT with an empty FROM list (the parse of
`SELECT 1;`) drives the dispatcher into the out-of-bounds indexing `&from[0]`
(`engine.rs` line 221), i.e. a panic (`none`), refuting the claim that every
parseable input returns normally. -/
theorem c3_panic_on_empty_from :
    (executeStmt engineDefault
      (Option.some (Statement.Query ⟨SetExpr.Select ⟨Option.none, []⟩⟩))).1 = Option.none := by
  decide

/-- C3 (amended): `execute` returns normally (some `EngineEvent` or
`ErrorEvent`) for every parsed statement except the three empty-list shapes
that drive an out-of-bounds indexing — an INSERT whose VALUES rows are
missing or whose first row is empty (`values[0][0]`, line 71), an UPDATE
with no assignments (`assignments[0]`, line 143), and a SELECT with an empty
FROM list (`from[0]`, line 221); every construct the dispatcher has no case
for yields `UnimplementedBranch` rather than a crash. -/
theorem c3_no_panic_for_nonempty_shapes (e : Engine) (s : Option Statement)
    (h : panicFree s = true) : ((executeStmt e s).1).isSome = true := by
  cases s with
  | none => rfl
  | some st =>
    cases st with
    | CreateTable name =>
      simp only [executeStmt]
      split
      all_goals rfl
    | Insert tn src =>
      obtain ⟨body⟩ := src
      cases body with
      | Values rows =>
        cases rows with
        | nil => exact absurd h (by simp [panicFree])
        | cons row0 rest =>
          cases row0 with
          | nil => exact absurd h (by simp [panicFree])
          | cons item items =>
            simp only [executeStmt]
            repeat' split
            all_goals rfl
      | Select s => rfl
      | Other d => rfl
    | Update tn a sel =>
      cases a with
      | nil => exact absurd h (by simp [panicFree])
      | cons a0 rest =>
        simp only [executeStmt]
        repeat' split
        all_goals rfl
    | Delete tn sel =>
      simp only [executeStmt]
      repeat' split
      all_goals rfl
    | Query q =>
      obtain ⟨body⟩ := q
      cases body with
      | Select sel =>
        obtain ⟨selection, froms⟩ := sel
        cases froms with
        | nil => exact absurd h (by simp [panicFree])
        | cons twj rest =>
          simp only [executeStmt, executeQuery]
          repeat' split
          all_goals rfl
      | Values rows => rfl
      | Other d => rfl
    | Other d => rfl

/-- C3 witness: the amended no-panic theorem applied at a concrete
panic-free input. -/
theorem c3_no_panic_for_nonempty_shapes_witness :
    panicFree (Option.some createTableStmt) = true
    ∧ ((executeStmt engineDefault (Option.some createTableStmt)).1).isSome = true :=
  ⟨rfl, c3_no_panic_for_nonempty_shapes engineDefault (Option.some createTableStmt) rfl⟩

/-- C4 counterexample: on an existing table, an UPDATE whose selection is the
non-equality comparison `int_column < 3` is NOT rejected with
`UnimplementedBranch` — the `Expr::BinaryOp { right, .. }` pattern
(`engine.rs` line 111) ignores the operator, treats the selection exactly
like an equality selection on the key 3, and reports `RecordsUpdated`,
refuting the claim that only equality comparisons resolve to a single key. -/
theorem c4_nonequality_operator_accepted :
    (executeStmt (executeStmt engineDefault (Option.some createTableStmt)).2
      (Option.some (Statement.Update "simple_table" [⟨"int_column", intLit 9⟩]
        (Option.some (Expr.BinaryOp col BinaryOperator.Lt (intLit 3)))))).1
      = Option.some (Except.ok EngineEvent.RecordsUpdated) := by
  decide

/-- C4 (amended): UPDATE and DELETE resolve their target row keys from
`selection` as follows — no selection resolves to all keys of the registry
map; ANY binary comparison whose right-hand side is an integer literal,
regardless of its operator and left operand, resolves to the single key equal
to that literal (the `Expr::BinaryOp { right, .. }` pattern ignores both);
a binary comparison with a non-literal right-hand side and every other
selection shape yield an `UnimplementedBranch` diagnostic. -/
theorem c4_key_resolution_amended :
    (∀ table : List (Int × Int), resolveKeys table Option.none = Except.ok (regKeys table))
    ∧ (∀ (table : List (Int × Int)) (lft : Expr) (op : BinaryOperator) (n : Int),
        resolveKeys table (Option.some (Expr.BinaryOp lft op (Expr.Value (Value.Number n))))
          = Except.ok [n])
    ∧ (∀ (table : List (Int × Int)) (ex : Expr) (negated : Bool) (low high : Expr),
        resolveKeys table (Option.some (Expr.Between ex negated low high))
          = Except.error (ErrorEvent.UnimplementedBranch "UNIMPLEMENTED HANDLING OF WHERE CLAUSE"))
    ∧ (∀ (table : List (Int × Int)) (lft : Expr) (op : BinaryOperator) (s : String),
        resolveKeys table (Option.some (Expr.BinaryOp lft op (Expr.Identifier s)))
          = Except.error (ErrorEvent.UnimplementedBranch "Non value RHS type is not supported"))
    ∧ (∀ (e : Engine) (tn : String) (a : List Assignment) (lft lft' : Expr)
         (op op' : BinaryOperator) (n : Int),
        executeStmt e (Option.some (Statement.Update tn a
            (Option.some (Expr.BinaryOp lft op (Expr.Value (Value.Number n))))))
          = executeStmt e (Option.some (Statement.Update tn a
              (Option.some (Expr.BinaryOp lft' op' (Expr.Value (Value.Number n)))))))
    ∧ (∀ (e : Engine) (tn : String) (lft lft' : Expr) (op op' : BinaryOperator) (n : Int),
        executeStmt e (Option.some (Statement.Delete tn
            (Option.some (Expr.BinaryOp lft op (Expr.Value (Value.Number n))))))
          = executeStmt e (Option.some (Statement.Delete tn
              (Option.some (Expr.BinaryOp lft' op' (Expr.Value (Value.Number n))))))) := by
  refine ⟨fun table => rfl, fun table lft op n => rfl, fun table ex ng lo hi => rfl,
    fun table lft op s => rfl, fun e tn a lft lft' op op' n => rfl,
    fun e tn lft lft' op op' n => rfl⟩

/-- C7: creating the same table twice from a state where it does not exist
yields `TableCreated(name)` first and `TableAlreadyExists(name)` second, and
the failed second call leaves the entire engine state — registry and storage —
unchanged (`engine.rs` lines 56-65). -/
theorem c7_create_twice (e : Engine) (name : String)
    (h : assocGet e.storage.tables name = Option.none) :
    (executeStmt e (Option.some (Statement.CreateTable name))).1
      = Option.some (Except.ok (EngineEvent.TableCreated name))
    ∧ (executeStmt (executeStmt e (Option.some (Statement.CreateTable name))).2
        (Option.some (Statement.CreateTable name))).1
      = Option.some (Except.error (ErrorEvent.TableAlreadyExists name))
    ∧ (executeStmt (executeStmt e (Option.some (Statement.CreateTable name))).2
        (Option.some (Statement.CreateTable name))).2
      = (executeStmt e (Option.some (Statement.CreateTable name))).2 := by
  have h1 : StorageState.create_table e.storage name
      = Except.ok ⟨assocPut e.storage.tables name []⟩ := by
    simp [StorageState.create_table, h]
  have h2 : StorageState.create_table (⟨assocPut e.storage.tables name []⟩ : StorageState) name
      = Except.error () := by
    simp [StorageState.create_table, assocGet_put_self]
  refine ⟨?_, ?_, ?_⟩ <;> simp [executeStmt, h1, h2]

/-- C7 witness: the create-twice theorem applied to a fresh engine and a
concrete table name. -/
theorem c7_create_twice_witness :
    assocGet engineDefault.storage.tables "simple_table" = Option.none
    ∧ (executeStmt engineDefault (Option.some (Statement.CreateTable "simple_table"))).1
        = Option.some (Except.ok (EngineEvent.TableCreated "simple_table"))
    ∧ (executeStmt (executeStmt engineDefault (Option.some (Statement.CreateTable "simple_table"))).2
        (Option.some (Statement.CreateTable "simple_table"))).1
        = Option.some (Except.error (ErrorEvent.TableAlreadyExists "simple_table")) :=
  ⟨rfl, (c7_create_twice engineDefault "simple_table" rfl).1,
    (c7_create_twice engineDefault "simple_table" rfl).2.1⟩

/-- C5: inserting the integer values 1, 2, 3 — in any insertion order — into
a freshly created table and then selecting with no WHERE clause returns
`RecordsSelected([[1],[2],[3]])`, the rows sorted in ascending key order
(the storage backend's ordered map is keyed by the row's own value). -/
theorem c5_insert_select_roundtrip (l : List Int) (h : l.Perm [1, 2, 3]) :
    (executeStmt (runCalls engineDefault
        (Option.some createTableStmt :: l.map (fun n => Option.some (insertStmt n))))
      (Option.some (selectStmt Option.none))).1
    = Option.some (Except.ok (EngineEvent.RecordsSelected
        [[Typ.Int 1], [Typ.Int 2], [Typ.Int 3]])) := by
  rcases l with _ | ⟨a, _ | ⟨b, _ | ⟨c, _ | ⟨d, t⟩⟩⟩⟩
  · exact absurd h (by decide)
  · exact absurd h.length_eq (by simp)
  · exact absurd h.length_eq (by simp)
  · have ha : a ∈ ([1, 2, 3] : List Int) := h.subset (by simp)
    have hb : b ∈ ([1, 2, 3] : List Int) := h.subset (by simp)
    have hc : c ∈ ([1, 2, 3] : List Int) := h.subset (by simp)
    simp only [List.mem_cons, List.not_mem_nil, or_false] at ha hb hc
    rcases ha with rfl | rfl | rfl <;> rcases hb with rfl | rfl | rfl <;>
      rcases hc with rfl | rfl | rfl <;>
      first
        | decide
        | exact absurd h (by decide)
  · have hlen := h.length_eq
    simp only [List.length_cons, List.length_nil] at hlen
    omega

/-- C5 witness: the round-trip theorem applied at the concrete insertion
order 3, 1, 2. -/
theorem c5_insert_select_roundtrip_witness :
    ([3, 1, 2] : List Int).Perm [1, 2, 3]
    ∧ (executeStmt (runCalls engineDefault
          (Option.some createTableStmt :: ([3, 1, 2] : List Int).map (fun n => Option.some (insertStmt n))))
        (Option.some (selectStmt Option.none))).1
      = Option.some (Except.ok (EngineEvent.RecordsSelected
          [[Typ.Int 1], [Typ.Int 2], [Typ.Int 3]])) :=
  ⟨by decide, c5_insert_select_roundtrip [3, 1, 2] (by decide)⟩

/-- C8: `execute` never surfaces a `TypeError` — the caller-visible error
type has exactly the three variants `TableAlreadyExists`, `TableDoesNotExist`
and `UnimplementedBranch`, and at every site where the literal converter can
fail (`Type::try_from` on a string, float, boolean or null literal, in an
INSERT value, an UPDATE selection or assignment, a DELETE selection, or a
SELECT equality right-hand side) the `TypeError::Unsupported` is re-wrapped
into an `UnimplementedBranch` error before being returned. -/
theorem c8_no_type_error_leak :
    (∀ err : ErrorEvent, (∃ s, err = ErrorEvent.TableAlreadyExists s)
      ∨ (∃ s, err = ErrorEvent.UnimplementedBranch s)
      ∨ (∃ s, err = ErrorEvent.TableDoesNotExist s))
    ∧ (∀ (e : Engine) (tn : String) (v : Value) (m : String),
        typeTryFrom v = Except.error (TypeError.Unsupported m) →
        (executeStmt e (Option.some (Statement.Insert tn ⟨SetExpr.Values [[Expr.Value v]]⟩))).1
          = Option.some (Except.error (ErrorEvent.UnimplementedBranch
              "UNIMPLEMENTED HANDLING OF STRING PARSING IN INSERT INTO table VALUES")))
    ∧ (∀ (e : Engine) (tn : String) (table : List (Int × Int)) (a : List Assignment)
         (lft : Expr) (op : BinaryOperator) (v : Value) (m : String),
        assocGet e.tables tn = Option.some table →
        typeTryFrom v = Except.error (TypeError.Unsupported m) →
        (executeStmt e (Option.some (Statement.Update tn a
            (Option.some (Expr.BinaryOp lft op (Expr.Value v)))))).1
          = Option.some (Except.error (ErrorEvent.UnimplementedBranch m)))
    ∧ (∀ (e : Engine) (tn : String) (table : List (Int × Int)) (c : String) (v : Value) (m : String),
        assocGet e.tables tn = Option.some table →
        typeTryFrom v = Except.error (TypeError.Unsupported m) →
        (executeStmt e (Option.some (Statement.Update tn [⟨c, Expr.Value v⟩] Option.none))).1
          = Option.some (Except.error (ErrorEvent.UnimplementedBranch m)))
    ∧ (∀ (e : Engine) (tn : String) (table : List (Int × Int)) (lft : Expr)
         (op : BinaryOperator) (v : Value) (m : String),
        assocGet e.tables tn = Option.some table →
        typeTryFrom v = Except.error (TypeError.Unsupported m) →
        (executeStmt e (Option.some (Statement.Delete tn
            (Option.some (Expr.BinaryOp lft op (Expr.Value v)))))).1
          = Option.some (Except.error (ErrorEvent.UnimplementedBranch m)))
    ∧ (∀ (st : StorageState) (tn : String) (lft : Expr) (v : Value) (m : String),
        typeTryFrom v = Except.error (TypeError.Unsupported m) →
        executeQuery st ⟨SetExpr.Select ⟨Option.some (Expr.BinaryOp lft BinaryOperator.Eq (Expr.Value v)),
            [⟨TableFactor.Table tn⟩]⟩⟩
          = Option.some (Except.error (ErrorEvent.UnimplementedBranch
              "UNIMPLEMENTED HANDLING OF STRING PARSING IN WHERE X = RIGHT"))) := by
  refine ⟨?_, ?_, ?_, ?_, ?_, ?_⟩
  · intro err
    cases err with
    | TableAlreadyExists s => exact Or.inl ⟨s, rfl⟩
    | UnimplementedBranch s => exact Or.inr (Or.inl ⟨s, rfl⟩)
    | TableDoesNotExist s => exact Or.inr (Or.inr ⟨s, rfl⟩)
  · intro e tn v m h
    simp [executeStmt, h]
  · intro e tn table a lft op v m h1 h2
    simp [executeStmt, resolveKeys, h1, h2]
  · intro e tn table c v m h1 h2
    simp [executeStmt, resolveKeys, h1, h2]
  · intro e tn table lft op v m h1 h2
    simp [executeStmt, resolveKeys, h1, h2]
  · intro st tn lft v m h
    simp [executeQuery, h]

/-- C8 witness: the re-wrap theorem applied at a concrete string literal in
an INSERT against a fresh engine. -/
theorem c8_no_type_error_leak_witness :
    typeTryFrom (Value.SingleQuotedString "x")
      = Except.error (TypeError.Unsupported "string literal is not supported")
    ∧ (executeStmt engineDefault (Option.some (Statement.Insert "simple_table"
        ⟨SetExpr.Values [[Expr.Value (Value.SingleQuotedString "x")]]⟩))).1
      = Option.some (Except.error (ErrorEvent.UnimplementedBranch
          "UNIMPLEMENTED HANDLING OF STRING PARSING IN INSERT INTO table VALUES")) :=
  ⟨rfl, c8_no_type_error_leak.2.1 engineDefault "simple_table"
    (Value.SingleQuotedString "x") "string literal is not supported" rfl⟩

/-- C9: over every sequence of `execute` calls from `Engine::default()`,
every per-table ordered map in the engine's own `tables` registry stays
empty — INSERT writes rows only through the storage backend and nothing ever
inserts into the registry's maps — and consequently UPDATE and DELETE, which
mutate only the registry's maps, leave the storage backend untouched and
never change the result of any subsequent SELECT. -/
theorem c9_registry_stays_empty (calls : List (Option Statement)) (tn : String)
    (a : List Assignment) (sel : Option Expr) (q : Query) :
    regAllEmpty (runCalls engineDefault calls)
    ∧ ((executeStmt (runCalls engineDefault calls)
          (Option.some (Statement.Update tn a sel))).2).storage
        = (runCalls engineDefault calls).storage
    ∧ ((executeStmt (runCalls engineDefault calls)
          (Option.some (Statement.Delete tn sel))).2).storage
        = (runCalls engineDefault calls).storage
    ∧ (executeStmt ((executeStmt (runCalls engineDefault calls)
          (Option.some (Statement.Update tn a sel))).2)
        (Option.some (Statement.Query q))).1
        = (executeStmt (runCalls engineDefault calls) (Option.some (Statement.Query q))).1
    ∧ (executeStmt ((executeStmt (runCalls engineDefault calls)
          (Option.some (Statement.Delete tn sel))).2)
        (Option.some (Statement.Query q))).1
        = (executeStmt (runCalls engineDefault calls) (Option.some (Statement.Query q))).1 := by
  refine ⟨regAllEmpty_runCalls calls, update_storage_unchanged _ tn a sel,
    delete_storage_unchanged _ tn sel, ?_, ?_⟩
  · rw [executeStmt_query_fst, executeStmt_query_fst, update_storage_unchanged]
  · rw [executeStmt_query_fst, executeStmt_query_fst, delete_storage_unchanged]

end Database
